import Mathlib

/-!
Shallow embedding of src/src/controllers/video.controller.js (video_social).

The controller orchestrates a document database (Mongoose) and a media-storage
provider (Cloudinary).  The database state is embedded as explicit lists of
records; every handler is a pure function from the request inputs and the
pre-state to a post-state, an event trace (the sequence of external calls the
handler issued), and a result.  External calls whose outcome is not determined
by the local state (Cloudinary uploads, the full-text search index, a database
write racing concurrent requests) are passed in as oracle parameters, mirroring
the call contracts of the black-box collaborators.

JavaScript semantics that matter here are embedded explicitly:
truthiness of strings (empty string falsy), truthiness of arrays (always
truthy, even `[]`), optional-chaining short-circuits, and the TypeError raised
by indexing `undefined`.
-/

namespace VideoSocial

/-- A media reference stored on a Video record: Cloudinary url plus public_id. -/
structure MediaRef where
  url : String
  public_id : String
deriving DecidableEq, Repr

/-- A video document (src/models/video.models.js fields as used by the controller). -/
structure Video where
  _id : String
  title : String
  description : String
  duration : Nat
  videoFile : MediaRef
  thumbnail : MediaRef
  views : Nat
  isPublished : Bool
  owner : String
  createdAt : Nat
deriving DecidableEq, Repr

/-- A user document; `avatarUrl` flattens the `avatar.url` sub-field the
controller projects.  `watchHistory` is the ordered list of video ids. -/
structure User where
  _id : String
  username : String
  avatarUrl : String
  watchHistory : List String
deriving DecidableEq, Repr

/-- A like document: which user liked which video. -/
structure Like where
  video : String
  likedBy : String
deriving DecidableEq, Repr

/-- A comment document; only the `video` reference matters to this controller. -/
structure Comment where
  video : String
  content : String
deriving DecidableEq, Repr

/-- A subscription document: `subscriber` follows `channel`. -/
structure Subscription where
  subscriber : String
  channel : String
deriving DecidableEq, Repr

/-- The persistent state the controller acts on: the database collections plus
the set of media assets (public_ids) currently held by the storage provider. -/
structure DB where
  videos : List Video
  users : List User
  likes : List Like
  comments : List Comment
  subscriptions : List Subscription
  cloudAssets : List String
deriving DecidableEq, Repr

/-- External calls a handler issues, in order, during one request. -/
inductive Event where
  | cloudUpload (localPath : String)
  | cloudDelete (public_id : String)
  | dbDeleteVideo (id : String)
  | likesDeleteMany (videoId : String)
  | commentsDeleteMany (videoId : String)
  | dbCreateVideo (id : String)
  | dbUpdateVideo (id : String)
  | dbIncViews (id : String)
  | dbAddToWatchHistory (userId : String) (videoId : String)
deriving DecidableEq, Repr

/-- Result of one handler run: `ok` carries the ApiResponse data; `apiError`
is a thrown ApiError (statusCode, message); `typeError` is an uncaught
JavaScript TypeError (an uncontrolled failure, not an ApiError); `dbReject`
is a rejection raised by the database model layer itself. -/
inductive HRes (α : Type) where
  | ok (data : α)
  | apiError (statusCode : Nat) (msg : String)
  | typeError
  | dbReject
deriving DecidableEq, Repr

/-- Outcome of a handler: post-state, trace of external calls, result. -/
structure Out (α : Type) where
  db : DB
  trace : List Event
  res : HRes α
deriving DecidableEq, Repr

/-- One hexadecimal digit, as `mongoose.isValidObjectId` accepts. -/
def isHexChar (c : Char) : Bool :=
  c.isDigit || (('a' ≤ c) && (c ≤ 'f')) || (('A' ≤ c) && (c ≤ 'F'))

/-- Embedding of `mongoose.isValidObjectId` on strings: a 24-character hex
string, or any 12-character string (12-byte representation). -/
def isValidObjectId (s : String) : Bool :=
  (s.data.length == 24 && s.data.all isHexChar) || s.data.length == 12

/-- JavaScript truthiness of an optional string: `undefined` and `""` are
falsy, every other string truthy. -/
def jsTruthyStr : Option String → Bool
  | none => false
  | some s => !(s == "")

/-- JavaScript truthiness of an array value: every array object is truthy,
even the empty array.  (video.controller.js line 241 tests `!video` where
`video` is the array returned by `Video.aggregate`.) -/
def arrayTruthy {α : Type} (_ : List α) : Bool := true

/-- Embedding of `video.owner.toString() !== req.user?._id.toString()`:
when `req.user` is absent the optional chain yields `undefined`, which never
equals a string, so the comparison reports a mismatch. -/
def ownerMismatch (v : Video) (userId? : Option String) : Bool :=
  match userId? with
  | some u => !(v.owner == u)
  | none => true

/-- Embedding of `Video.findById(id)` on the local state. -/
def findVideo (db : DB) (vid : String) : Option Video :=
  db.videos.find? (fun w => w._id == vid)

/-- Embedding of `User.findById(id)` on the local state. -/
def findUser (db : DB) (uid : String) : Option User :=
  db.users.find? (fun u => u._id == uid)

/-- Embedding of `Video.findByIdAndUpdate(id, update, \x7b new: true \x7d)`:
applies `f` to every matching record and returns the updated document. -/
def findByIdAndUpdateVideo (db : DB) (vid : String) (f : Video → Video) :
    DB × Option Video :=
  ({db with videos := db.videos.map (fun w => if w._id == vid then f w else w)},
   (db.videos.find? (fun w => w._id == vid)).map f)

/-- Embedding of `deleteOnCloudinary(public_id)`: the remote asset is removed. -/
def cloudDeleteAsset (db : DB) (pid : String) : DB :=
  {db with cloudAssets := db.cloudAssets.filter (fun a => !(a == pid))}

/-- The result an `uploadOnCloudinary` call reports: url, public_id and the
duration metadata of the uploaded file. -/
structure CloudAsset where
  url : String
  public_id : String
  duration : Nat
deriving DecidableEq, Repr

/-- State effect of one `uploadOnCloudinary` call whose (oracle) outcome is
`up`: on success the asset now exists remotely; a failed call stores nothing. -/
def applyUpload (db : DB) (up : Option CloudAsset) : DB :=
  match up with
  | some a => {db with cloudAssets := a.public_id :: db.cloudAssets}
  | none => db

/-! ## getAllVideos (video.controller.js lines 13-86) -/

/-- The `$search` stage (lines 18-28): delegated to the managed full-text
index, embedded as an oracle relevance predicate `si`.  `if (query)` is a JS
truthiness test, so an empty query string skips the stage. -/
def queryStage (si : String → Video → Bool) (query? : Option String)
    (vs : List Video) : List Video :=
  match query? with
  | some q => if !(q == "") then vs.filter (si q) else vs
  | none => vs

/-- The mandatory `$match \x7b isPublished: true \x7d` stage (line 42). -/
def publishedStage (vs : List Video) : List Video :=
  vs.filter (fun v => v.isPublished)

/-- Numeric value of a named sortable video field for the `$sort` stage.
The claims under verification depend on membership, not order, so only the
numeric fields are distinguished; unknown field names compare equal. -/
def sortKeyVal (field : String) (v : Video) : Nat :=
  if field == "views" then v.views
  else if field == "duration" then v.duration
  else if field == "createdAt" then v.createdAt
  else 0

/-- Insert `v` into `l` keeping elements satisfying `le` first (stable). -/
def insertSorted (le : Video → Video → Bool) (v : Video) :
    List Video → List Video
  | [] => [v]
  | w :: ws => if le w v then w :: insertSorted le v ws else v :: w :: ws

/-- Insertion sort used as the executable model of the database `$sort`. -/
def sortVideos (le : Video → Video → Bool) : List Video → List Video
  | [] => []
  | v :: vs => insertSorted le v (sortVideos le vs)

/-- The `$sort` stage (lines 44-52): sort by `sortBy` in direction `sortType`
when both are truthy, otherwise by creation time descending. -/
def sortStage (sortBy? sortType? : Option String) (vs : List Video) :
    List Video :=
  if jsTruthyStr sortBy? && jsTruthyStr sortType? then
    match sortBy?, sortType? with
    | some sb, some st =>
        if st == "asc" then
          sortVideos (fun a b => sortKeyVal sb a ≤ sortKeyVal sb b) vs
        else
          sortVideos (fun a b => sortKeyVal sb b ≤ sortKeyVal sb a) vs
    | _, _ => vs
  else
    sortVideos (fun a b => b.createdAt ≤ a.createdAt) vs

/-- The owner fields `$lookup` projects (lines 61-68). -/
structure OwnerDetails where
  username : String
  avatarUrl : String
deriving DecidableEq, Repr

/-- One document of the paginated list result after `$lookup`/`$unwind`. -/
structure VideoSummary where
  video : Video
  ownerDetails : OwnerDetails
deriving DecidableEq, Repr

/-- The `$lookup` to users plus `$unwind "$ownerDetails"` (lines 54-73):
each video is joined with every user record matching its owner; videos whose
owner has no user record are dropped by the unwind. -/
def ownerDetailsStage (users : List User) (vs : List Video) :
    List VideoSummary :=
  vs.flatMap (fun v =>
    (users.filter (fun u => u._id == v.owner)).map
      (fun u => ⟨v, ⟨u.username, u.avatarUrl⟩⟩))

/-- The page `Video.aggregatePaginate` returns. -/
structure PageResult where
  docs : List VideoSummary
  totalDocs : Nat
  page : Nat
  totalPages : Nat
deriving DecidableEq, Repr

/-- Embedding of `aggregatePaginate` over the pipeline's output list. -/
def paginate (xs : List VideoSummary) (page limit : Nat) : PageResult :=
  ⟨(xs.drop ((page - 1) * limit)).take limit, xs.length, page,
   (xs.length + limit - 1) / limit⟩

/-- The pipeline tail common to every non-error branch of `getAllVideos`:
mandatory published filter, sort, owner join, pagination. -/
def listRest (users : List User) (sortBy? sortType? : Option String)
    (page limit : Nat) (vs : List Video) : PageResult :=
  paginate (ownerDetailsStage users (sortStage sortBy? sortType? (publishedStage vs)))
    page limit

/-- Embedding of `getAllVideos` (lines 13-86).  `page?`/`limit?` are the
already-parsed query integers (defaults 1 and 10 as in the destructuring);
`si` is the full-text index oracle. -/
def getAllVideos (db : DB) (page? limit? : Option Nat)
    (query? sortBy? sortType? userId? : Option String)
    (si : String → Video → Bool) : Out PageResult :=
  let vs1 := queryStage si query? db.videos
  let page := page?.getD 1
  let limit := limit?.getD 10
  if jsTruthyStr userId? then
    match userId? with
    | some uid =>
        if !(isValidObjectId uid) then ⟨db, [], .apiError 400 "Invalid userId"⟩
        else
          ⟨db, [], .ok (listRest db.users sortBy? sortType? page limit
            (vs1.filter (fun v => v.owner == uid)))⟩
    | none => ⟨db, [], .apiError 400 "Invalid userId"⟩
  else
    ⟨db, [], .ok (listRest db.users sortBy? sortType? page limit vs1)⟩

/-! ## publishAVideo (video.controller.js lines 88-142) -/

/-- One uploaded multipart file as multer stages it. -/
structure UploadedFile where
  path : String
deriving DecidableEq, Repr

/-- The `req.files` object: each field is an array of files when present. -/
structure ReqFiles where
  videoFile : Option (List UploadedFile)
  thumbnail : Option (List UploadedFile)
deriving DecidableEq, Repr

/-- Result of a JavaScript member-access chain that can raise a TypeError. -/
inductive JsAccess (α : Type) where
  | ok (val : α)
  | typeError
deriving DecidableEq, Repr

/-- Embedding of `req.files?.FIELD[0].path` (lines 95-96): a nullish
`req.files` short-circuits the whole chain to `undefined`; an absent field or
an empty array makes the `[0]`/`.path` access throw a TypeError. -/
def filePath (files? : Option ReqFiles)
    (field : ReqFiles → Option (List UploadedFile)) : JsAccess (Option String) :=
  match files? with
  | none => .ok none
  | some fs =>
      match field fs with
      | none => .typeError
      | some [] => .typeError
      | some (f :: _) => .ok (some f.path)

/-- Embedding of the JavaScript `trim()` method: strips leading and trailing
whitespace characters. -/
def jsTrim (s : String) : String :=
  ⟨((s.data.dropWhile Char.isWhitespace).reverse.dropWhile Char.isWhitespace).reverse⟩

/-- Embedding of `[title, description].some((field) => field?.trim() === "")`
(line 91): for an absent field the optional chain yields `undefined`, and
`undefined === ""` is false, so only a present, whitespace-only field trips
the check. -/
def blankFieldCheck (title? description? : Option String) : Bool :=
  (title?.map jsTrim == some "") || (description?.map jsTrim == some "")

/-- Embedding of `publishAVideo` (lines 88-142).  `upVideoFile`/`upThumbnail`
are the oracle outcomes of the two `uploadOnCloudinary` calls; `newId` and
`now` are the identifier and timestamp the database mints for the new record.
The `dbReject` branch is modelled from the spec: the Mongoose model files
(src/models) are not under src/, and per the data model every Video carries a
title, a description and an owner, so `Video.create` rejects (persisting
nothing) when any of them is absent from the request. -/
def publishAVideo (db : DB) (title? description? : Option String)
    (files? : Option ReqFiles) (userId? : Option String)
    (upVideoFile upThumbnail : Option CloudAsset) (newId : String) (now : Nat) :
    Out Video :=
  if blankFieldCheck title? description? then
    ⟨db, [], .apiError 400 "All fields are required"⟩
  else
    match filePath files? ReqFiles.videoFile with
    | .typeError => ⟨db, [], .typeError⟩
    | .ok videoFileLocalPath? =>
      match filePath files? ReqFiles.thumbnail with
      | .typeError => ⟨db, [], .typeError⟩
      | .ok thumbnailLocalPath? =>
        match videoFileLocalPath? with
        | none => ⟨db, [], .apiError 400 "video file local path is required"⟩
        | some videoFileLocalPath =>
          match thumbnailLocalPath? with
          | none => ⟨db, [], .apiError 400 "thumbnail local path is required"⟩
          | some thumbnailLocalPath =>
            let db2 := applyUpload (applyUpload db upVideoFile) upThumbnail
            let tr := [Event.cloudUpload videoFileLocalPath,
                       Event.cloudUpload thumbnailLocalPath]
            match upVideoFile with
            | none => ⟨db2, tr, .apiError 400 "video not found"⟩
            | some videoFile =>
              match upThumbnail with
              | none => ⟨db2, tr, .apiError 400 "thumbnail not found"⟩
              | some thumbnail =>
                match title?, description?, userId? with
                | some title, some description, some owner =>
                  let video : Video :=
                    ⟨newId, title, description, videoFile.duration,
                     ⟨videoFile.url, videoFile.public_id⟩,
                     ⟨thumbnail.url, thumbnail.public_id⟩,
                     0, false, owner, now⟩
                  let db3 := {db2 with videos := db2.videos ++ [video]}
                  match findVideo db3 newId with
                  | none =>
                      ⟨db3, tr ++ [.dbCreateVideo newId],
                       .apiError 500 "video upload failed"⟩
                  | some _ =>
                      ⟨db3, tr ++ [.dbCreateVideo newId], .ok video⟩
                | _, _, _ => ⟨db2, tr, .dbReject⟩

/-! ## getVideoById (video.controller.js lines 144-260) -/

/-- The enriched owner object the detail aggregation projects. -/
structure DetailOwner where
  username : String
  avatarUrl : String
  subscribersCount : Nat
  isSubscribed : Bool
deriving DecidableEq, Repr

/-- One document of the detail aggregation after the final `$project`. -/
structure DetailDoc where
  videoFileUrl : String
  title : String
  description : String
  views : Nat
  createdAt : Nat
  duration : Nat
  owner : Option DetailOwner
  likesCount : Nat
  isLiked : Bool
deriving DecidableEq, Repr

/-- Embedding of the detail aggregation (lines 155-239): `$match` on `_id`,
`$lookup` of likes, `$lookup` of the owner enriched with subscriber data,
`$addFields` (likesCount, `$first` of owner, isLiked), final `$project`. -/
def detailAgg (db : DB) (videoId uid : String) : List DetailDoc :=
  (db.videos.filter (fun v => v._id == videoId)).map (fun v =>
    let likes := db.likes.filter (fun l => l.video == v._id)
    let owner :=
      ((db.users.filter (fun u => u._id == v.owner)).map (fun u =>
        let subs := db.subscriptions.filter (fun s => s.channel == u._id)
        ({ username := u.username, avatarUrl := u.avatarUrl,
           subscribersCount := subs.length,
           isSubscribed := (subs.map (fun s => s.subscriber)).contains uid } :
          DetailOwner))).head?
    { videoFileUrl := v.videoFile.url, title := v.title,
      description := v.description, views := v.views, createdAt := v.createdAt,
      duration := v.duration, owner := owner, likesCount := likes.length,
      isLiked := (likes.map (fun l => l.likedBy)).contains uid })

/-- State effect of `Video.findByIdAndUpdate(videoId, \x7b $inc: \x7b views: 1 \x7d \x7d)`
(lines 245-249): every matching record's counter is bumped; a miss is a no-op. -/
def incViews (db : DB) (videoId : String) : DB :=
  {db with videos := db.videos.map (fun w =>
    if w._id == videoId then {w with views := w.views + 1} else w)}

/-- State effect of `User.findByIdAndUpdate(uid, \x7b $addToSet: \x7b watchHistory:
videoId \x7d \x7d)` (lines 251-255): the id is appended only if not already
present (set semantics, insertion order preserved). -/
def addToWatchHistory (db : DB) (uid videoId : String) : DB :=
  {db with users := db.users.map (fun u =>
    if u._id == uid then
      {u with watchHistory :=
        if u.watchHistory.contains videoId then u.watchHistory
        else u.watchHistory ++ [videoId]}
    else u)}

/-- Embedding of `getVideoById` (lines 144-260).  `userId?` is
`req.user?._id`; `isValidObjectId(undefined)` is false.  Line 241 tests
`!video` on the aggregation array, which is always truthy, so the guard
never fires and the response data is `video[0]` (possibly `undefined`). -/
def getVideoById (db : DB) (videoId : String) (userId? : Option String) :
    Out (Option DetailDoc) :=
  if !(isValidObjectId videoId) then ⟨db, [], .apiError 400 "Invalid videoId"⟩
  else
    match userId? with
    | none => ⟨db, [], .apiError 400 "Invalid userId"⟩
    | some uid =>
      if !(isValidObjectId uid) then ⟨db, [], .apiError 400 "Invalid userId"⟩
      else
        let video := detailAgg db videoId uid
        if !(arrayTruthy video) then ⟨db, [], .apiError 500 "failed to fetch video"⟩
        else
          let db1 := incViews db videoId
          let db2 := addToWatchHistory db1 uid videoId
          ⟨db2, [.dbIncViews videoId, .dbAddToWatchHistory uid videoId],
           .ok video.head?⟩

/-! ## updateVideo (video.controller.js lines 262-317) -/

/-- JavaScript truthiness of the identifier `updateVideo` as used on lines
306 and 309 of the source: those lines test the enclosing handler function
`updateVideo` — not the awaited result `updatedVideo` — and a function object
is always truthy. -/
def updateVideoFnTruthy : Bool := true

/-- Embedding of `updateVideo` (lines 262-317).  `upThumbnail` is the oracle
outcome of the `uploadOnCloudinary` call; `dbWriteOk` is the oracle outcome of
the `findByIdAndUpdate` write, which per the database collaborator contract
returns the updated document or nothing (false injects a downstream failure,
e.g. the record vanishing to a concurrent delete between the read and the
write). -/
def updateVideo (db : DB) (videoId : String) (userId? : Option String)
    (title? description? : Option String) (file? : Option UploadedFile)
    (upThumbnail : Option CloudAsset) (dbWriteOk : Bool) : Out (Option Video) :=
  if !(isValidObjectId videoId) then ⟨db, [], .apiError 400 "Invalid videoId"⟩
  else
    match title?, description? with
    | some title, some description =>
      if title == "" || description == "" then
        ⟨db, [], .apiError 400 "title and description are required"⟩
      else
        match findVideo db videoId with
        | none => ⟨db, [], .apiError 400 "video not found"⟩
        | some video =>
          if ownerMismatch video userId? then
            ⟨db, [], .apiError 403 "you are not authorized to update this video"⟩
          else
            let thumbnailToDelete := video.thumbnail.public_id
            match file? with
            | none => ⟨db, [], .apiError 400 "thumbnail is required"⟩
            | some _file =>
              let db1 := applyUpload db upThumbnail
              match upThumbnail with
              | none =>
                  ⟨db1, [.cloudUpload _file.path], .apiError 400 "thumbnail not found"⟩
              | some thumbnail =>
                let (db2, updatedVideo) :=
                  if dbWriteOk then
                    findByIdAndUpdateVideo db1 videoId (fun w =>
                      {w with title := title, description := description,
                              thumbnail := ⟨thumbnail.url, thumbnail.public_id⟩})
                  else (db1, none)
                let tr := [Event.cloudUpload _file.path] ++
                  (if dbWriteOk then [Event.dbUpdateVideo videoId] else [])
                if !updateVideoFnTruthy then
                  ⟨db2, tr, .apiError 500 "failed to update video"⟩
                else
                  let db3 :=
                    if updateVideoFnTruthy then cloudDeleteAsset db2 thumbnailToDelete
                    else db2
                  ⟨db3, tr ++ [.cloudDelete thumbnailToDelete], .ok updatedVideo⟩
    | _, _ => ⟨db, [], .apiError 400 "title and description are required"⟩

/-! ## deleteVideo (video.controller.js lines 319-349) -/

/-- Embedding of `deleteVideo` (lines 319-349): ownership check, then
`findByIdAndDelete`, then the two Cloudinary deletions (thumbnail first, then
video file), then `Like.deleteMany` and `Comment.deleteMany` on the video id. -/
def deleteVideo (db : DB) (videoId : String) (userId? : Option String) :
    Out Unit :=
  if !(isValidObjectId videoId) then ⟨db, [], .apiError 400 "Invalid videoId"⟩
  else
    match findVideo db videoId with
    | none => ⟨db, [], .apiError 400 "video not found"⟩
    | some video =>
      if ownerMismatch video userId? then
        ⟨db, [], .apiError 403 "you are not authorized to delete this video"⟩
      else
        let videoDeleted := db.videos.find? (fun w => w._id == video._id)
        let db1 := {db with videos := db.videos.filter (fun w => !(w._id == video._id))}
        match videoDeleted with
        | none => ⟨db1, [.dbDeleteVideo video._id], .apiError 500 "failed to delete video"⟩
        | some _ =>
          let db2 := cloudDeleteAsset db1 video.thumbnail.public_id
          let db3 := cloudDeleteAsset db2 video.videoFile.public_id
          let db4 := {db3 with likes := db3.likes.filter (fun l => !(l.video == videoId))}
          let db5 := {db4 with comments := db4.comments.filter (fun c => !(c.video == videoId))}
          ⟨db5,
           [.dbDeleteVideo video._id, .cloudDelete video.thumbnail.public_id,
            .cloudDelete video.videoFile.public_id, .likesDeleteMany videoId,
            .commentsDeleteMany videoId],
           .ok ()⟩

/-! ## togglePublishStatus (video.controller.js lines 351-384) -/

/-- Embedding of `togglePublishStatus` (lines 351-384): ownership check, then
`findByIdAndUpdate` setting `isPublished` to the negation of the value read,
returning only the new flag in the response data. -/
def togglePublishStatus (db : DB) (videoId : String) (userId? : Option String) :
    Out Bool :=
  if !(isValidObjectId videoId) then ⟨db, [], .apiError 400 "Invalid videoId"⟩
  else
    match findVideo db videoId with
    | none => ⟨db, [], .apiError 404 "Video not found"⟩
    | some video =>
      if ownerMismatch video userId? then
        ⟨db, [], .apiError 403 "You are not authorized to update this video"⟩
      else
        let (db1, toggledVideoPublish) :=
          findByIdAndUpdateVideo db videoId (fun w =>
            {w with isPublished := !video.isPublished})
        match toggledVideoPublish with
        | none =>
            ⟨db1, [.dbUpdateVideo videoId],
             .apiError 500 "Failed to toogle video publish status"⟩
        | some t =>
            ⟨db1, [.dbUpdateVideo videoId], .ok t.isPublished⟩

/-! ## Sample data used by concrete evaluations and witnesses -/

/-- A valid 24-hex ObjectId for the sample published video. -/
def vidA : String := "aaaaaaaaaaaaaaaaaaaaaaaa"

/-- A valid 24-hex ObjectId for the sample owner user. -/
def uidB : String := "bbbbbbbbbbbbbbbbbbbbbbbb"

/-- A valid 24-hex ObjectId for a sample non-owner user. -/
def uidC : String := "cccccccccccccccccccccccc"

/-- A valid 24-hex ObjectId minted for newly created records. -/
def vidE : String := "eeeeeeeeeeeeeeeeeeeeeeee"

/-- A valid 24-hex ObjectId matching no video in the sample database. -/
def vidF : String := "ffffffffffffffffffffffff"

/-- A published sample video owned by `uidB`. -/
def videoA : Video :=
  ⟨vidA, "A title", "A desc", 100, ⟨"http://cdn/v.mp4", "pid_vA"⟩,
   ⟨"http://cdn/t.png", "pid_tA"⟩, 5, true, uidB, 10⟩

/-- A valid 24-hex ObjectId for the sample unpublished video. -/
def vidD : String := "dddddddddddddddddddddddd"

/-- An unpublished sample video owned by `uidB`. -/
def videoD : Video :=
  ⟨vidD, "D title", "D desc", 50, ⟨"http://cdn/d.mp4", "pid_vD"⟩,
   ⟨"http://cdn/d.png", "pid_tD"⟩, 2, false, uidB, 20⟩

/-- The sample owner user. -/
def userB : User := ⟨uidB, "bob", "http://cdn/av.png", []⟩

/-- The sample non-owner user. -/
def userC : User := ⟨uidC, "carl", "http://cdn/avc.png", []⟩

/-- A sample database: one published and one unpublished video, their owner,
a second user, one like and one comment on the published video, and the four
remote media assets. -/
def sampleDB : DB :=
  ⟨[videoA, videoD], [userB, userC], [⟨vidA, uidC⟩], [⟨vidA, "nice"⟩], [],
   ["pid_vA", "pid_tA", "pid_vD", "pid_tD"]⟩

/-! ## List-pipeline membership lemmas -/

theorem mem_insertSorted {le : Video → Video → Bool} {v w : Video}
    {l : List Video} : w ∈ insertSorted le v l ↔ w = v ∨ w ∈ l := by
  induction l with
  | nil => simp [insertSorted]
  | cons x xs ih =>
      unfold insertSorted
      split
      · simp only [List.mem_cons, ih]
        tauto
      · simp only [List.mem_cons]

theorem mem_sortVideos {le : Video → Video → Bool} {v : Video}
    {l : List Video} : v ∈ sortVideos le l ↔ v ∈ l := by
  induction l with
  | nil => simp [sortVideos]
  | cons w ws ih => simp [sortVideos, mem_insertSorted, ih]

theorem mem_sortStage {sortBy? sortType? : Option String} {vs : List Video}
    {v : Video} : v ∈ sortStage sortBy? sortType? vs ↔ v ∈ vs := by
  unfold sortStage
  split
  · split
    · split <;> exact mem_sortVideos
    · exact Iff.rfl
  · exact mem_sortVideos

theorem video_mem_of_mem_ownerDetailsStage {users : List User}
    {l : List Video} {s : VideoSummary} (h : s ∈ ownerDetailsStage users l) :
    s.video ∈ l := by
  unfold ownerDetailsStage at h
  rw [List.mem_flatMap] at h
  obtain ⟨v, hv, hs⟩ := h
  rw [List.mem_map] at hs
  obtain ⟨u, _, rfl⟩ := hs
  exact hv

theorem published_of_mem_listRest {users : List User}
    {sortBy? sortType? : Option String} {page limit : Nat} {vs : List Video}
    {s : VideoSummary} (hs : s ∈ (listRest users sortBy? sortType? page limit vs).docs) :
    s.video.isPublished = true := by
  unfold listRest paginate at hs
  dsimp only at hs
  have h1 : s ∈ ownerDetailsStage users (sortStage sortBy? sortType? (publishedStage vs)) :=
    List.drop_subset _ _ (List.take_subset _ _ hs)
  have h2 : s.video ∈ publishedStage vs :=
    mem_sortStage.mp (video_mem_of_mem_ownerDetailsStage h1)
  exact (List.mem_filter.mp h2).2

/-- C1: for every list request to `getAllVideos`, whatever the query, userId,
sort and pagination parameters, every video on the returned page has
isPublished = true — the pipeline always contains the mandatory
isPublished-match stage. -/
theorem getAllVideos_only_published (db : DB) (page? limit? : Option Nat)
    (query? sortBy? sortType? userId? : Option String)
    (si : String → Video → Bool) (p : PageResult)
    (h : (getAllVideos db page? limit? query? sortBy? sortType? userId? si).res = .ok p) :
    ∀ s ∈ p.docs, s.video.isPublished = true := by
  unfold getAllVideos at h
  dsimp only at h
  split at h
  · split at h
    · split at h
      · cases h
      · cases h
        intro s hs
        exact published_of_mem_listRest hs
    · cases h
  · cases h
    intro s hs
    exact published_of_mem_listRest hs

/-- Witness for C1 at a concrete request: the default listing of the sample
database succeeds and every returned video is published. -/
theorem getAllVideos_only_published_witness :
    ∃ p, (getAllVideos sampleDB none none none none none none (fun _ _ => true)).res = .ok p ∧
      ∀ s ∈ p.docs, s.video.isPublished = true :=
  ⟨_, rfl, getAllVideos_only_published sampleDB none none none none none none
    (fun _ _ => true) _ rfl⟩

/-! ## Ownership checks (C2) -/

/-- C2: an update, delete or publish-toggle request whose acting user differs
from the video's owner fails with the 403 Forbidden ApiError, leaves the
database and the remote assets exactly as they were, and issues no external
call.  The hypotheses place the request at the ownership check: the id is
well formed, the video exists, and (for update) title and description pass
the preceding truthiness check. -/
theorem nonowner_requests_forbidden (db : DB) (vid u : String) (v : Video)
    (title description : String) (file? : Option UploadedFile)
    (up : Option CloudAsset) (dbOk : Bool)
    (hvid : isValidObjectId vid = true)
    (hv : findVideo db vid = some v)
    (hown : v.owner ≠ u)
    (ht : title ≠ "") (hd : description ≠ "") :
    updateVideo db vid (some u) (some title) (some description) file? up dbOk =
      ⟨db, [], .apiError 403 "you are not authorized to update this video"⟩ ∧
    deleteVideo db vid (some u) =
      ⟨db, [], .apiError 403 "you are not authorized to delete this video"⟩ ∧
    togglePublishStatus db vid (some u) =
      ⟨db, [], .apiError 403 "You are not authorized to update this video"⟩ := by
  have hmm : ownerMismatch v (some u) = true := by
    simp [ownerMismatch, hown]
  refine ⟨?_, ?_, ?_⟩
  · unfold updateVideo
    simp [hvid, hv, hmm, ht, hd]
  · unfold deleteVideo
    simp [hvid, hv, hmm]
  · unfold togglePublishStatus
    simp [hvid, hv, hmm]

/-- Witness for C2: the non-owner `uidC` attacking the sample video `videoA`
owned by `uidB` is rejected with 403 by all three mutating handlers, with the
sample database unchanged. -/
theorem nonowner_requests_forbidden_witness :
    videoA.owner ≠ uidC ∧
    (updateVideo sampleDB vidA (some uidC) (some "t2") (some "d2")
        (some ⟨"/tmp/new.png"⟩) (some ⟨"http://cdn/new.png", "pid_new", 0⟩) true =
      ⟨sampleDB, [], .apiError 403 "you are not authorized to update this video"⟩ ∧
     deleteVideo sampleDB vidA (some uidC) =
      ⟨sampleDB, [], .apiError 403 "you are not authorized to delete this video"⟩ ∧
     togglePublishStatus sampleDB vidA (some uidC) =
      ⟨sampleDB, [], .apiError 403 "You are not authorized to update this video"⟩) :=
  ⟨by decide,
   nonowner_requests_forbidden sampleDB vidA uidC videoA "t2" "d2"
     (some ⟨"/tmp/new.png"⟩) (some ⟨"http://cdn/new.png", "pid_new", 0⟩) true
     (by decide) rfl (by decide) (by decide) (by decide)⟩

/-! ## Detail-request side effects (C7, C10) -/

/-- Views of the video `vid` currently recorded in the database. -/
def viewsOf (db : DB) (vid : String) : Option Nat :=
  (findVideo db vid).map (fun v => v.views)

/-- Watch history of the user `uid` currently recorded in the database. -/
def watchHistoryOf (db : DB) (uid : String) : Option (List String) :=
  (findUser db uid).map (fun u => u.watchHistory)

theorem find?_map_video (f : Video → Video) (hf : ∀ w, (f w)._id = w._id)
    (k : String) (l : List Video) :
    (l.map f).find? (fun w => w._id == k) = (l.find? (fun w => w._id == k)).map f := by
  induction l with
  | nil => rfl
  | cons a t ih =>
      simp only [List.map_cons, List.find?]
      rw [hf a]
      cases h : (a._id == k) with
      | true => simp
      | false => simpa using ih

theorem find?_map_user (f : User → User) (hf : ∀ u, (f u)._id = u._id)
    (k : String) (l : List User) :
    (l.map f).find? (fun u => u._id == k) = (l.find? (fun u => u._id == k)).map f := by
  induction l with
  | nil => rfl
  | cons a t ih =>
      simp only [List.map_cons, List.find?]
      rw [hf a]
      cases h : (a._id == k) with
      | true => simp
      | false => simpa using ih

theorem findVideo_incViews (db : DB) (vid vid' : String) :
    findVideo (incViews db vid) vid' =
      (findVideo db vid').map
        (fun w => if w._id == vid then {w with views := w.views + 1} else w) := by
  unfold findVideo incViews
  exact find?_map_video _ (fun w => by split <;> rfl) vid' db.videos

theorem findUser_addToWatchHistory (db : DB) (uid vid uid' : String) :
    findUser (addToWatchHistory db uid vid) uid' =
      (findUser db uid').map
        (fun u => if u._id == uid then
          {u with watchHistory :=
            if u.watchHistory.contains vid then u.watchHistory
            else u.watchHistory ++ [vid]}
          else u) := by
  unfold findUser addToWatchHistory
  exact find?_map_user _ (fun u => by split <;> rfl) uid' db.users

theorem findVideo_addToWatchHistory (db : DB) (uid vid vid' : String) :
    findVideo (addToWatchHistory db uid vid) vid' = findVideo db vid' := rfl

theorem findUser_incViews (db : DB) (vid uid' : String) :
    findUser (incViews db vid) uid' = findUser db uid' := rfl

/-- Once both identifier checks pass, `getVideoById` always takes the success
path: the `!video` guard on the aggregation array never fires, the counter
increment and the watch-history insertion run, and the response carries the
head of the aggregation result. -/
theorem getVideoById_success (db : DB) (vid uid : String)
    (hvid : isValidObjectId vid = true) (huid : isValidObjectId uid = true) :
    getVideoById db vid (some uid) =
      ⟨addToWatchHistory (incViews db vid) uid vid,
       [.dbIncViews vid, .dbAddToWatchHistory uid vid],
       .ok (detailAgg db vid uid).head?⟩ := by
  unfold getVideoById
  simp [hvid, huid, arrayTruthy]

/-- C7: a successful detail request for the existing video `v` by user `u`
returns a document, increments the video's view counter by exactly 1, and
adds the video to the user's watch history only if not already present; the
immediately repeated request increments the counter again (to +2) but leaves
the watch history unchanged, so the video appears exactly once. -/
theorem getVideoById_view_and_history (db : DB) (vid uid : String)
    (v : Video) (u : User)
    (hvid : isValidObjectId vid = true) (huid : isValidObjectId uid = true)
    (hv : findVideo db vid = some v) (hu : findUser db uid = some u) :
    (getVideoById db vid (some uid)).res = .ok (detailAgg db vid uid).head? ∧
    detailAgg db vid uid ≠ [] ∧
    viewsOf (getVideoById db vid (some uid)).db vid = some (v.views + 1) ∧
    watchHistoryOf (getVideoById db vid (some uid)).db uid =
      some (if u.watchHistory.contains vid then u.watchHistory
            else u.watchHistory ++ [vid]) ∧
    viewsOf (getVideoById (getVideoById db vid (some uid)).db vid (some uid)).db vid =
      some (v.views + 2) ∧
    watchHistoryOf (getVideoById (getVideoById db vid (some uid)).db vid (some uid)).db uid =
      watchHistoryOf (getVideoById db vid (some uid)).db uid ∧
    (vid ∉ u.watchHistory →
      ((watchHistoryOf (getVideoById (getVideoById db vid (some uid)).db vid (some uid)).db uid).getD []).count vid = 1) := by
  have hgv := getVideoById_success db vid uid hvid huid
  have hv' : db.videos.find? (fun w => w._id == vid) = some v := hv
  have hu' : db.users.find? (fun w => w._id == uid) = some u := hu
  have hmemv : v ∈ db.videos := List.mem_of_find?_eq_some hv'
  have hidv : (v._id == vid) = true := by
    have h := List.find?_some hv'
    exact h
  have hidu : (u._id == uid) = true := by
    have h := List.find?_some hu'
    exact h
  have hvfilter : v ∈ db.videos.filter (fun w => w._id == vid) :=
    List.mem_filter.mpr ⟨hmemv, hidv⟩
  have hveq : v._id = vid := by simpa using hidv
  have hueq : u._id = uid := by simpa using hidu
  have hfv1 : findVideo (addToWatchHistory (incViews db vid) uid vid) vid =
      some {v with views := v.views + 1} := by
    rw [findVideo_addToWatchHistory, findVideo_incViews, hv]
    simp [hveq]
  have hfu1 : findUser (addToWatchHistory (incViews db vid) uid vid) uid =
      some {u with watchHistory :=
        if u.watchHistory.contains vid then u.watchHistory
        else u.watchHistory ++ [vid]} := by
    rw [findUser_addToWatchHistory, findUser_incViews, hu]
    simp [hueq]
  have hgv2 := getVideoById_success (addToWatchHistory (incViews db vid) uid vid)
    vid uid hvid huid
  have hfv2 : findVideo (addToWatchHistory
      (incViews (addToWatchHistory (incViews db vid) uid vid) vid) uid vid) vid =
      some {v with views := v.views + 2} := by
    rw [findVideo_addToWatchHistory, findVideo_incViews, hfv1]
    simp [hveq]
  have hcontains :
      vid ∈ (if vid ∈ u.watchHistory then u.watchHistory
             else u.watchHistory ++ [vid]) := by
    by_cases h : vid ∈ u.watchHistory
    · simp [h]
    · simp [h]
  have hfu2 : findUser (addToWatchHistory
      (incViews (addToWatchHistory (incViews db vid) uid vid) vid) uid vid) uid =
      some {u with watchHistory :=
        if u.watchHistory.contains vid then u.watchHistory
        else u.watchHistory ++ [vid]} := by
    rw [findUser_addToWatchHistory, findUser_incViews, hfu1]
    simp [hueq, hcontains]
  refine ⟨?_, ?_, ?_, ?_, ?_, ?_, ?_⟩
  · rw [hgv]
  · unfold detailAgg
    simp only [ne_eq, List.map_eq_nil_iff]
    exact List.ne_nil_of_mem hvfilter
  · rw [hgv]
    unfold viewsOf
    rw [hfv1]
    rfl
  · rw [hgv]
    unfold watchHistoryOf
    rw [hfu1]
    rfl
  · rw [hgv]
    dsimp only
    rw [hgv2]
    unfold viewsOf
    rw [hfv2]
    rfl
  · rw [hgv]
    dsimp only
    rw [hgv2]
    unfold watchHistoryOf
    rw [hfu1, hfu2]
  · intro hnm
    rw [hgv]
    dsimp only
    rw [hgv2]
    unfold watchHistoryOf
    rw [hfu2]
    simp [hnm, List.count_append, List.count_eq_zero_of_not_mem hnm]

/-- Witness for C7: a concrete detail request by `uidC` for the sample video
`vidA`, which is not yet in carl's watch history. -/
theorem getVideoById_view_and_history_witness :
    isValidObjectId vidA = true ∧
    ((getVideoById sampleDB vidA (some uidC)).res = .ok (detailAgg sampleDB vidA uidC).head? ∧
     detailAgg sampleDB vidA uidC ≠ [] ∧
     viewsOf (getVideoById sampleDB vidA (some uidC)).db vidA = some (videoA.views + 1) ∧
     watchHistoryOf (getVideoById sampleDB vidA (some uidC)).db uidC =
       some (if userC.watchHistory.contains vidA then userC.watchHistory
             else userC.watchHistory ++ [vidA]) ∧
     viewsOf (getVideoById (getVideoById sampleDB vidA (some uidC)).db vidA (some uidC)).db vidA =
       some (videoA.views + 2) ∧
     watchHistoryOf (getVideoById (getVideoById sampleDB vidA (some uidC)).db vidA (some uidC)).db uidC =
       watchHistoryOf (getVideoById sampleDB vidA (some uidC)).db uidC ∧
     (vidA ∉ userC.watchHistory →
       ((watchHistoryOf (getVideoById (getVideoById sampleDB vidA (some uidC)).db vidA (some uidC)).db uidC).getD []).count vidA = 1)) :=
  ⟨by decide,
   getVideoById_view_and_history sampleDB vidA uidC videoA userC
     (by decide) (by decide) rfl rfl⟩

/-! ## Publish toggle (C9) -/

/-- Helper: once the id is valid, the video exists and the acting user is the
owner, the toggle handler flips the flag in the store and answers with only
the new flag value. -/
theorem togglePublishStatus_success (db : DB) (vid u : String) (v : Video)
    (hvid : isValidObjectId vid = true) (hv : findVideo db vid = some v)
    (hown : v.owner = u) :
    togglePublishStatus db vid (some u) =
      ⟨{db with videos := db.videos.map (fun w =>
          if w._id == vid then {w with isPublished := !v.isPublished} else w)},
       [.dbUpdateVideo vid], .ok (!v.isPublished)⟩ := by
  unfold togglePublishStatus findByIdAndUpdateVideo
  have hmm : ownerMismatch v (some u) = false := by
    simp [ownerMismatch, hown]
  have hv' : db.videos.find? (fun w => w._id == vid) = some v := hv
  simp [hvid, hv, hmm, hv']

/-- C9: a successful publish-toggle by the owner returns exactly the negated
flag and stores it; toggling again returns the original flag and restores the
original record, field for field (involution). -/
theorem togglePublishStatus_involution (db : DB) (vid u : String) (v : Video)
    (hvid : isValidObjectId vid = true) (hv : findVideo db vid = some v)
    (hown : v.owner = u) :
    (togglePublishStatus db vid (some u)).res = .ok (!v.isPublished) ∧
    findVideo (togglePublishStatus db vid (some u)).db vid =
      some {v with isPublished := !v.isPublished} ∧
    (togglePublishStatus (togglePublishStatus db vid (some u)).db vid (some u)).res =
      .ok v.isPublished ∧
    findVideo (togglePublishStatus (togglePublishStatus db vid (some u)).db vid (some u)).db vid =
      some v := by
  have ht1 := togglePublishStatus_success db vid u v hvid hv hown
  have hv' : db.videos.find? (fun w => w._id == vid) = some v := hv
  have hveq : v._id = vid := by
    have h := List.find?_some hv'
    simpa using h
  have hidv : (v._id == vid) = true := by simp [hveq]
  have hfv1 : findVideo (togglePublishStatus db vid (some u)).db vid =
      some {v with isPublished := !v.isPublished} := by
    rw [ht1]
    show (db.videos.map _).find? _ = _
    rw [find?_map_video _ (fun w => by split <;> rfl) vid db.videos, hv']
    simp [hveq]
  have hfv1' : (togglePublishStatus db vid (some u)).db.videos.find?
      (fun w => w._id == vid) = some {v with isPublished := !v.isPublished} := hfv1
  have ht2 := togglePublishStatus_success (togglePublishStatus db vid (some u)).db
    vid u {v with isPublished := !v.isPublished} hvid hfv1 hown
  refine ⟨by rw [ht1], hfv1, ?_, ?_⟩
  · rw [ht2]
    simp
  · rw [ht2]
    show ((togglePublishStatus db vid (some u)).db.videos.map _).find? _ = _
    rw [find?_map_video _ (fun w => by split <;> rfl) vid _, hfv1']
    simp [hidv]
    exact hveq

/-- Witness for C9: the owner `uidB` toggles the sample published video
`videoA` twice; the first call answers false, the second true, and the record
is restored. -/
theorem togglePublishStatus_involution_witness :
    videoA.owner = uidB ∧
    ((togglePublishStatus sampleDB vidA (some uidB)).res = .ok (!videoA.isPublished) ∧
     findVideo (togglePublishStatus sampleDB vidA (some uidB)).db vidA =
       some {videoA with isPublished := !videoA.isPublished} ∧
     (togglePublishStatus (togglePublishStatus sampleDB vidA (some uidB)).db vidA (some uidB)).res =
       .ok videoA.isPublished ∧
     findVideo (togglePublishStatus (togglePublishStatus sampleDB vidA (some uidB)).db vidA (some uidB)).db vidA =
       some videoA) :=
  ⟨rfl, togglePublishStatus_involution sampleDB vidA uidB videoA (by decide) rfl rfl⟩

/-! ## Delete cascade (C8) -/

/-- C8: a successful delete by the owner removes the video record, removes
both remote media assets, removes every Like and every Comment referencing
the video, and issues the external calls in exactly this order: database
record first, then the two asset deletions, then the dependent-record
deletions. -/
theorem deleteVideo_cascade (db : DB) (vid u : String) (v : Video)
    (hvid : isValidObjectId vid = true) (hv : findVideo db vid = some v)
    (hown : v.owner = u) :
    (deleteVideo db vid (some u)).res = .ok () ∧
    findVideo (deleteVideo db vid (some u)).db vid = none ∧
    v.thumbnail.public_id ∉ (deleteVideo db vid (some u)).db.cloudAssets ∧
    v.videoFile.public_id ∉ (deleteVideo db vid (some u)).db.cloudAssets ∧
    (∀ l ∈ (deleteVideo db vid (some u)).db.likes, l.video ≠ vid) ∧
    (∀ c ∈ (deleteVideo db vid (some u)).db.comments, c.video ≠ vid) ∧
    (deleteVideo db vid (some u)).trace =
      [.dbDeleteVideo v._id, .cloudDelete v.thumbnail.public_id,
       .cloudDelete v.videoFile.public_id, .likesDeleteMany vid,
       .commentsDeleteMany vid] := by
  have hmm : ownerMismatch v (some u) = false := by
    simp [ownerMismatch, hown]
  have hv' : db.videos.find? (fun w => w._id == vid) = some v := hv
  have hveq : v._id = vid := by
    have h := List.find?_some hv'
    simpa using h
  have hfindself : db.videos.find? (fun w => w._id == v._id) = some v := by
    rw [hveq]; exact hv'
  have hrun : deleteVideo db vid (some u) =
      ⟨⟨db.videos.filter (fun w => !(w._id == v._id)), db.users,
        (db.likes.filter (fun l => !(l.video == vid))),
        (db.comments.filter (fun c => !(c.video == vid))), db.subscriptions,
        ((db.cloudAssets.filter (fun a => !(a == v.thumbnail.public_id))).filter
          (fun a => !(a == v.videoFile.public_id)))⟩,
       [.dbDeleteVideo v._id, .cloudDelete v.thumbnail.public_id,
        .cloudDelete v.videoFile.public_id, .likesDeleteMany vid,
        .commentsDeleteMany vid],
       .ok ()⟩ := by
    unfold deleteVideo cloudDeleteAsset
    simp [hvid, hv, hmm, hfindself]
  refine ⟨by rw [hrun], ?_, ?_, ?_, ?_, ?_, by rw [hrun]⟩
  · rw [hrun]
    unfold findVideo
    dsimp only
    rw [List.find?_eq_none]
    intro w hw
    have := (List.mem_filter.mp hw).2
    simpa [hveq] using this
  · rw [hrun]
    intro hmem
    have := (List.mem_filter.mp hmem).1
    have h2 := (List.mem_filter.mp this).2
    simp at h2
  · rw [hrun]
    intro hmem
    have h2 := (List.mem_filter.mp hmem).2
    simp at h2
  · rw [hrun]
    intro l hl
    have h2 := (List.mem_filter.mp hl).2
    simpa using h2
  · rw [hrun]
    intro c hc
    have h2 := (List.mem_filter.mp hc).2
    simpa using h2

/-- Witness for C8: the owner `uidB` deletes the sample video `videoA`; the
record, both assets, the like and the comment are gone, and the five external
calls happen in the documented order. -/
theorem deleteVideo_cascade_witness :
    videoA.owner = uidB ∧
    ((deleteVideo sampleDB vidA (some uidB)).res = .ok () ∧
     findVideo (deleteVideo sampleDB vidA (some uidB)).db vidA = none ∧
     videoA.thumbnail.public_id ∉ (deleteVideo sampleDB vidA (some uidB)).db.cloudAssets ∧
     videoA.videoFile.public_id ∉ (deleteVideo sampleDB vidA (some uidB)).db.cloudAssets ∧
     (∀ l ∈ (deleteVideo sampleDB vidA (some uidB)).db.likes, l.video ≠ vidA) ∧
     (∀ c ∈ (deleteVideo sampleDB vidA (some uidB)).db.comments, c.video ≠ vidA) ∧
     (deleteVideo sampleDB vidA (some uidB)).trace =
       [.dbDeleteVideo videoA._id, .cloudDelete videoA.thumbnail.public_id,
        .cloudDelete videoA.videoFile.public_id, .likesDeleteMany vidA,
        .commentsDeleteMany vidA]) :=
  ⟨rfl, deleteVideo_cascade sampleDB vidA uidB videoA (by decide) rfl rfl⟩

/-! ## Detail request for a nonexistent video (C10, C3) -/

theorem map_if_no_match (vid : String) (f : Video → Video) :
    ∀ l : List Video, (∀ w ∈ l, (w._id == vid) = false) →
      l.map (fun w => if w._id == vid then f w else w) = l := by
  intro l
  induction l with
  | nil => intro _; rfl
  | cons a t ih =>
      intro h
      have ha := h a (List.mem_cons_self a t)
      have ht := ih (fun w hw => h w (List.mem_cons_of_mem a hw))
      simp only [List.map_cons]
      rw [ha, ht]
      simp

/-- C10: a detail request with a well-formed videoId that matches no video
still completes successfully with `undefined` data, still issues both side
effects (the view-increment call, a no-op on the store, and the watch-history
insertion, which does land), and afterwards the acting user's watch history
contains the id of a video that does not exist. -/
theorem getVideoById_missing_video_side_effects (db : DB) (vid uid : String)
    (u : User)
    (hvid : isValidObjectId vid = true) (huid : isValidObjectId uid = true)
    (hv : findVideo db vid = none) (hu : findUser db uid = some u) :
    (getVideoById db vid (some uid)).res = .ok none ∧
    (getVideoById db vid (some uid)).trace =
      [.dbIncViews vid, .dbAddToWatchHistory uid vid] ∧
    (getVideoById db vid (some uid)).db.videos = db.videos ∧
    watchHistoryOf (getVideoById db vid (some uid)).db uid =
      some (if u.watchHistory.contains vid then u.watchHistory
            else u.watchHistory ++ [vid]) ∧
    vid ∈ (watchHistoryOf (getVideoById db vid (some uid)).db uid).getD [] ∧
    findVideo (getVideoById db vid (some uid)).db vid = none := by
  have hgv := getVideoById_success db vid uid hvid huid
  have hv' : db.videos.find? (fun w => w._id == vid) = none := hv
  have hu' : db.users.find? (fun w => w._id == uid) = some u := hu
  have hidu : (u._id == uid) = true := by
    have h := List.find?_some hu'
    exact h
  have hueq : u._id = uid := by simpa using hidu
  have hall : ∀ w ∈ db.videos, (w._id == vid) = false := by
    intro w hw
    have h := List.find?_eq_none.mp hv' w hw
    simpa using h
  have hvids : (getVideoById db vid (some uid)).db.videos = db.videos := by
    rw [hgv]
    show db.videos.map _ = db.videos
    exact map_if_no_match vid _ db.videos hall
  have hagg : detailAgg db vid uid = [] := by
    unfold detailAgg
    have hfil : db.videos.filter (fun v => v._id == vid) = [] := by
      rw [List.filter_eq_nil_iff]
      intro w hw
      simpa using hall w hw
    rw [hfil]
    rfl
  have hfu1 : findUser (addToWatchHistory (incViews db vid) uid vid) uid =
      some {u with watchHistory :=
        if u.watchHistory.contains vid then u.watchHistory
        else u.watchHistory ++ [vid]} := by
    rw [findUser_addToWatchHistory, findUser_incViews, hu]
    simp [hueq]
  refine ⟨?_, by rw [hgv], hvids, ?_, ?_, ?_⟩
  · rw [hgv]
    dsimp only
    rw [hagg]
    rfl
  · rw [hgv]
    unfold watchHistoryOf
    rw [hfu1]
    rfl
  · rw [hgv]
    unfold watchHistoryOf
    rw [hfu1]
    by_cases h : vid ∈ u.watchHistory <;> simp [h]
  · unfold findVideo
    rw [hvids]
    exact hv'

/-- Witness for C10: a concrete request by `uidC` for `vidF`, a well-formed
id matching nothing in the sample database. -/
theorem getVideoById_missing_video_side_effects_witness :
    findVideo sampleDB vidF = none ∧
    ((getVideoById sampleDB vidF (some uidC)).res = .ok none ∧
     (getVideoById sampleDB vidF (some uidC)).trace =
       [.dbIncViews vidF, .dbAddToWatchHistory uidC vidF] ∧
     (getVideoById sampleDB vidF (some uidC)).db.videos = sampleDB.videos ∧
     watchHistoryOf (getVideoById sampleDB vidF (some uidC)).db uidC =
       some (if userC.watchHistory.contains vidF then userC.watchHistory
             else userC.watchHistory ++ [vidF]) ∧
     vidF ∈ (watchHistoryOf (getVideoById sampleDB vidF (some uidC)).db uidC).getD [] ∧
     findVideo (getVideoById sampleDB vidF (some uidC)).db vidF = none) :=
  ⟨rfl, getVideoById_missing_video_side_effects sampleDB vidF uidC userC
    (by decide) (by decide) rfl rfl⟩

/-- C3, evaluated at the failing input: the detail request for the
well-formed but nonexistent id `vidF` does NOT fail — the `!video` guard on
line 241 never fires because the empty aggregation array is truthy — and the
handler answers 200 with `undefined` data instead of a NotFound or
InternalError. -/
theorem getVideoById_no_document_returns_success :
    (getVideoById sampleDB vidF (some uidC)).res = .ok none := by decide

/-! ## The update-failure guard bug (C4) -/

/-- C4, evaluated at the failing input: the owner updates `videoA` but the
`findByIdAndUpdate` write returns no document (`dbWriteOk = false`).  Because
lines 306 and 309 test the handler function name `updateVideo` instead of the
result `updatedVideo`, the handler does not raise the 500 InternalError — it
answers 200 with null data — and it still deletes the old thumbnail's remote
asset even though the database write failed. -/
theorem updateVideo_failed_write_bug :
    (updateVideo sampleDB vidA (some uidB) (some "t2") (some "d2")
      (some ⟨"/tmp/new.png"⟩) (some ⟨"http://cdn/new.png", "pid_new", 0⟩) false).res =
      .ok none ∧
    Event.cloudDelete videoA.thumbnail.public_id ∈
      (updateVideo sampleDB vidA (some uidB) (some "t2") (some "d2")
        (some ⟨"/tmp/new.png"⟩) (some ⟨"http://cdn/new.png", "pid_new", 0⟩) false).trace ∧
    videoA.thumbnail.public_id ∉
      (updateVideo sampleDB vidA (some uidB) (some "t2") (some "d2")
        (some ⟨"/tmp/new.png"⟩) (some ⟨"http://cdn/new.png", "pid_new", 0⟩) false).db.cloudAssets := by
  decide

/-! ## Ingestion validation bugs (C5, C6) -/

/-- C5, evaluated at the failing input: a request with the title absent
(`undefined`) passes the blank-field check — `undefined?.trim() === ""` is
false — so no "All fields are required" ValidationError is raised and both
uploads to the storage provider are attempted before the create step rejects. -/
theorem publishAVideo_missing_title_bug :
    (publishAVideo sampleDB none (some "a description")
      (some ⟨some [⟨"/tmp/v.mp4"⟩], some [⟨"/tmp/t.png"⟩]⟩) (some uidB)
      (some ⟨"http://cdn/new-v.mp4", "pid_newv", 9⟩)
      (some ⟨"http://cdn/new-t.png", "pid_newt", 0⟩) vidE 30).res ≠
      .apiError 400 "All fields are required" ∧
    (publishAVideo sampleDB none (some "a description")
      (some ⟨some [⟨"/tmp/v.mp4"⟩], some [⟨"/tmp/t.png"⟩]⟩) (some uidB)
      (some ⟨"http://cdn/new-v.mp4", "pid_newv", 9⟩)
      (some ⟨"http://cdn/new-t.png", "pid_newt", 0⟩) vidE 30).trace =
      [.cloudUpload "/tmp/v.mp4", .cloudUpload "/tmp/t.png"] := by
  decide

/-- C6, evaluated at the failing input: a request whose `req.files` exists
but carries no `thumbnail` field crashes with an uncaught TypeError at
`req.files?.thumbnail[0].path` (line 96) — an uncontrolled failure, not the
400 ValidationError — before any upload and before any state change. -/
theorem publishAVideo_missing_thumbnail_bug :
    publishAVideo sampleDB (some "a title") (some "a description")
      (some ⟨some [⟨"/tmp/v.mp4"⟩], none⟩) (some uidB)
      (some ⟨"http://cdn/new-v.mp4", "pid_newv", 9⟩)
      (some ⟨"http://cdn/new-t.png", "pid_newt", 0⟩) vidE 30 =
    ⟨sampleDB, [], .typeError⟩ := by
  decide

end VideoSocial
